import Mathlib

/-!
Verification of the file validation and PDF-to-image conversion pipeline
of the ai-report-summarizer repository (src/file_utils.py).

The Python module is shallowly embedded below.  Byte sequences are
modelled as `List Nat`.  The two third-party libraries the module calls
are modelled as oracles passed explicitly to each function:

* Pillow (`Image.open` followed by `img.verify`) is a function
  `PillowDecode : List Nat → PillowResult`; on success it yields the
  decoded width and height, otherwise it reports which exception class
  was raised (`UnidentifiedImageError` versus any other `Exception`),
  which is exactly the distinction the Python handlers make.
* PyMuPDF (`fitz.open(stream=..., filetype="pdf")`) is a function
  `FitzOpen : List Nat → Option (List FitzPage)`; `none` models the
  open call raising, `some doc` models a parsed document, one
  `FitzPage` per page in document order.  A page records the pixmap
  dimensions the library reports for the identity matrix
  (`page.get_pixmap(alpha=False)`, used by the validation probe) and
  for the zoom matrix used by the rasterizer
  (`page.get_pixmap(matrix=fitz.Matrix(zoom, zoom), alpha=False)`).

Both passes of the pipeline call the same oracle on the same bytes,
which matches the purity of the Python functions (no state is shared
between calls, and reparsing identical bytes yields identical results).
-/

namespace FileUtils

/-- `AZURE_MAX_IMAGE_WIDTH` from src/file_utils.py. -/
def AZURE_MAX_IMAGE_WIDTH : Nat := 10000

/-- `AZURE_MAX_IMAGE_HEIGHT` from src/file_utils.py. -/
def AZURE_MAX_IMAGE_HEIGHT : Nat := 10000

/-- `AZURE_MAX_FILE_MB` from src/file_utils.py. -/
def AZURE_MAX_FILE_MB : Nat := 500

/-- `AZURE_MAX_PDF_PAGES` from src/file_utils.py. -/
def AZURE_MAX_PDF_PAGES : Nat := 2000

/-- The four exception classes of src/file_utils.py, each carrying the
message string it was constructed with. -/
inductive FileError where
  | emptyFile (msg : String)
  | unsupportedFileType (msg : String)
  | fileTooLarge (msg : String)
  | corruptedFile (msg : String)
deriving DecidableEq

/-- Result of the Pillow decode attempt `Image.open(io.BytesIO(b))`
followed by `img.verify()`: success with the decoded dimensions, an
`UnidentifiedImageError`, or any other `Exception` (message kept). -/
inductive PillowResult where
  | ok (width height : Nat)
  | unidentifiedImage
  | otherError (msg : String)
deriving DecidableEq

/-- Oracle for the Pillow library: what open + verify does on given bytes. -/
def PillowDecode : Type := List Nat → PillowResult

/-- One PDF page as seen through PyMuPDF: the pixmap dimensions reported
for the identity matrix (the validation probe, `page.get_pixmap(alpha=False)`)
and for the zoom matrix used by the rasterizer call. -/
structure FitzPage where
  probeWidth : Nat
  probeHeight : Nat
  renderWidth : Nat
  renderHeight : Nat
deriving DecidableEq

/-- Oracle for `fitz.open(stream=b, filetype="pdf")`: `none` when the
call raises, otherwise the list of pages in document order. -/
def FitzOpen : Type := List Nat → Option (List FitzPage)

/-- The 4-byte signature `%PDF`. -/
def pdfSignature : List Nat := [0x25, 0x50, 0x44, 0x46]

/-- `detect_file_type` from src/file_utils.py: empty check, then the
`startswith(b"%PDF")` signature check, then the Pillow decode attempt
whose failures are both translated to `UnsupportedFileTypeError`. -/
def detect_file_type (pillow : PillowDecode) (file_bytes : List Nat) :
    Except FileError String :=
  if file_bytes = [] then
    .error (.emptyFile "File is empty")
  else if file_bytes.take 4 = pdfSignature then
    .ok "pdf"
  else
    match pillow file_bytes with
    | .ok _ _ => .ok "image"
    | .unidentifiedImage => .error (.unsupportedFileType "Unsupported image format")
    | .otherError e => .error (.unsupportedFileType ("Error processing file: " ++ e))

/-- Message of the size-limit `FileTooLargeError` in `validate_file`. -/
def sizeLimitMsg (file_type : String) : String :=
  file_type.toUpper ++ " exceeds max allowed size of " ++
    toString AZURE_MAX_FILE_MB ++ " MB."

/-- Message of the page-count `FileTooLargeError` in `validate_file`. -/
def pageCountMsg (page_count : Nat) : String :=
  toString page_count ++ " pages exceeds max number of " ++
    toString AZURE_MAX_PDF_PAGES ++ "."

/-- Message of the per-page dimension `FileTooLargeError` in `validate_file`. -/
def pageDimsMsg (idx width height : Nat) : String :=
  "PDF page " ++ toString idx ++ " renders to " ++ toString width ++ "x" ++
    toString height ++ ", which exceeds max allowed " ++
    toString AZURE_MAX_IMAGE_WIDTH ++ "x" ++ toString AZURE_MAX_IMAGE_HEIGHT ++ "."

/-- The `for idx, page in enumerate(doc)` probe loop of `validate_file`:
checks every page pixmap at the identity matrix against the dimension
limits, failing at the first offending page with its 0-based index. -/
def validatePdfPages : List FitzPage → Nat → Except FileError Unit
  | [], _ => .ok ()
  | page :: rest, idx =>
    if page.probeWidth > AZURE_MAX_IMAGE_WIDTH ∨
        page.probeHeight > AZURE_MAX_IMAGE_HEIGHT then
      .error (.fileTooLarge (pageDimsMsg idx page.probeWidth page.probeHeight))
    else
      validatePdfPages rest (idx + 1)

/-- The image branch of `validate_file`.  In the Python source the whole
branch body sits in a `try:` block ending in
`except UnidentifiedImageError: raise CorruptedFileError("Image is corrupted.")`
and `except Exception: raise CorruptedFileError("Image validation failed.")`.
Because `FileTooLargeError` is a subclass of `Exception`, the
`FileTooLargeError` raised for oversized dimensions inside that `try:`
block is intercepted by the second handler, so the branch surfaces
`CorruptedFileError("Image validation failed.")` in that case. -/
def validateImageBranch (pillow : PillowDecode) (file_bytes : List Nat) :
    Except FileError Unit :=
  match pillow file_bytes with
  | .ok w h =>
    if w > AZURE_MAX_IMAGE_WIDTH ∨ h > AZURE_MAX_IMAGE_HEIGHT then
      .error (.corruptedFile "Image validation failed.")
    else
      .ok ()
  | .unidentifiedImage => .error (.corruptedFile "Image is corrupted.")
  | .otherError _ => .error (.corruptedFile "Image validation failed.")

/-- `validate_file` from src/file_utils.py.  The Python size check is
`len(file_bytes) / (1024 * 1024) > AZURE_MAX_FILE_MB` in floating point;
since 1024 * 1024 is a power of two the division is exact, so the check
is equivalent to the integer comparison used here. -/
def validate_file (pillow : PillowDecode) (mupdf : FitzOpen)
    (file_bytes : List Nat) (file_type : String) : Except FileError Unit :=
  if file_bytes.length > AZURE_MAX_FILE_MB * (1024 * 1024) then
    .error (.fileTooLarge (sizeLimitMsg file_type))
  else if file_type = "pdf" then
    match mupdf file_bytes with
    | none => .error (.corruptedFile "PDF appears corrupted.")
    | some doc =>
      if doc.length > AZURE_MAX_PDF_PAGES then
        .error (.fileTooLarge (pageCountMsg doc.length))
      else
        validatePdfPages doc 0
  else if file_type = "image" then
    validateImageBranch pillow file_bytes
  else
    .error (.unsupportedFileType "Unsupported format.")

/-- A PIL image as far as this module observes it: width and height. -/
structure PILImage where
  width : Nat
  height : Nat
deriving DecidableEq

/-- The per-page body of the loop in `pdf_bytes_to_images`: build the
image from the rendered pixmap, then, when its width exceeds
`max_width`, resize to `(max_width, int(img.height * (max_width / img.width)))`.
The `int()` truncation of the nonnegative float product is modelled as
the floor of the exact rational value, i.e. Nat floor division. -/
def renderPage (max_width : Nat) (page : FitzPage) : PILImage :=
  if page.renderWidth > max_width then
    ⟨max_width, page.renderHeight * max_width / page.renderWidth⟩
  else
    ⟨page.renderWidth, page.renderHeight⟩

/-- `pdf_bytes_to_images` from src/file_utils.py: reopen the document
(raising `CorruptedFileError` when that fails), then render every page
in document order, downsizing pages wider than `max_width`.  The `dpi`
argument only enters the zoom matrix handed to the library; the pixmap
dimensions the library returns for that matrix are the `renderWidth`
and `renderHeight` fields of each page of the oracle. -/
def pdf_bytes_to_images (mupdf : FitzOpen) (pdf_bytes : List Nat)
    (dpi max_width : Nat) : Except FileError (List PILImage) :=
  match mupdf pdf_bytes with
  | none => .error (.corruptedFile "PDF appears corrupted.")
  | some doc => .ok (doc.map (renderPage max_width))

/-- Result of `process_file`: a list of page images for a PDF, or the
unchanged input bytes for an image. -/
inductive ProcessingOutcome where
  | pdfPages (pages : List PILImage)
  | imageBytes (bytes : List Nat)
deriving DecidableEq

/-- `process_file` from src/file_utils.py: detect, validate, then
convert PDFs with `pdf_bytes_to_images(file_bytes)` (defaults dpi=150,
max_width=1200) or return image bytes unchanged.  Every exception of a
callee propagates unchanged, modelled by the error matches. -/
def process_file (pillow : PillowDecode) (mupdf : FitzOpen)
    (file_bytes : List Nat) : Except FileError ProcessingOutcome :=
  match detect_file_type pillow file_bytes with
  | .error e => .error e
  | .ok file_type =>
    match validate_file pillow mupdf file_bytes file_type with
    | .error e => .error e
    | .ok _ =>
      if file_type = "pdf" then
        match pdf_bytes_to_images mupdf file_bytes 150 1200 with
        | .error e => .error e
        | .ok imgs => .ok (.pdfPages imgs)
      else
        .ok (.imageBytes file_bytes)

/-- Sample Pillow oracle: every decode succeeds with a 10 by 10 image. -/
def smallOkPillow : PillowDecode := fun _ => .ok 10 10

/-- Sample Pillow oracle: every decode raises `UnidentifiedImageError`. -/
def failPillow : PillowDecode := fun _ => .unidentifiedImage

/-- Sample PyMuPDF oracle: every open raises (structurally corrupt bytes). -/
def noPdf : FitzOpen := fun _ => none

/-- Shared helper: the byte-length pre-check of `validate_file` fires,
with the size message, whenever the length exceeds 500 MiB, for every
kind string and independently of both library oracles. -/
lemma validate_file_oversized (pillow : PillowDecode) (mupdf : FitzOpen)
    (b : List Nat) (k : String)
    (h : b.length > AZURE_MAX_FILE_MB * (1024 * 1024)) :
    validate_file pillow mupdf b k = .error (.fileTooLarge (sizeLimitMsg k)) := by
  unfold validate_file
  simp [h]

/-- Shared helper: a byte sequence within the size limit whose Pillow
decode succeeds with in-bounds dimensions passes `validate_file` as an
image. -/
lemma validate_file_image_ok (pillow : PillowDecode) (mupdf : FitzOpen)
    (b : List Nat) (w h : Nat)
    (hlen : ¬ b.length > AZURE_MAX_FILE_MB * (1024 * 1024))
    (hdec : pillow b = .ok w h)
    (hw : ¬ w > AZURE_MAX_IMAGE_WIDTH) (hh : ¬ h > AZURE_MAX_IMAGE_HEIGHT) :
    validate_file pillow mupdf b "image" = .ok () := by
  unfold validate_file validateImageBranch
  rw [if_neg hlen, if_neg (by decide), if_pos rfl, hdec]
  exact if_neg (fun hc => hc.elim hw hh)

/-- C2 as stated is false: 501000000 zero bytes have
`len(b) / 1_000_000 = 501 > 500`, yet `validate_file` accepts them as an
image, because the source divides by `1024 * 1024`, not `1_000_000`. -/
theorem C2_decimal_megabytes_counterexample :
    (List.replicate 501000000 (0 : Nat)).length / 1000000 > AZURE_MAX_FILE_MB ∧
    validate_file smallOkPillow noPdf (List.replicate 501000000 (0 : Nat)) "image"
      = .ok () := by
  constructor
  · rw [List.length_replicate]
    norm_num [AZURE_MAX_FILE_MB]
  · exact validate_file_image_ok smallOkPillow noPdf _ 10 10
      (by rw [List.length_replicate]; norm_num [AZURE_MAX_FILE_MB])
      rfl (by norm_num [AZURE_MAX_IMAGE_WIDTH]) (by norm_num [AZURE_MAX_IMAGE_HEIGHT])

/-- C2 (amended): the size threshold uses binary megabytes: for every
byte sequence, both library oracles and every kind string, `validate_file`
fails with the size-limit `FileTooLargeError` whenever
`len(b) / (1024 * 1024) > AZURE_MAX_FILE_MB`, i.e. `len(b) > 524288000`,
before any format-specific parsing and identically for PDF and image. -/
theorem C2_size_threshold_binary_megabytes (pillow : PillowDecode)
    (mupdf : FitzOpen) (b : List Nat) (k : String)
    (h : b.length > AZURE_MAX_FILE_MB * (1024 * 1024)) :
    validate_file pillow mupdf b k = .error (.fileTooLarge (sizeLimitMsg k)) :=
  validate_file_oversized pillow mupdf b k h

/-- Witness for C2 (amended) at 524288001 zero bytes classified as image. -/
theorem C2_size_threshold_binary_megabytes_witness :
    validate_file smallOkPillow noPdf (List.replicate 524288001 (0 : Nat)) "image"
      = .error (.fileTooLarge (sizeLimitMsg "image")) :=
  C2_size_threshold_binary_megabytes smallOkPillow noPdf _ "image"
    (by rw [List.length_replicate]; norm_num [AZURE_MAX_FILE_MB])

/-- C3: an input whose byte length exceeds the configured maximum is
rejected as `FileTooLargeError` with the size message, for both library
oracles arbitrary — in particular even when the bytes are structurally
corrupted (every parse attempt would fail) — and never as
`CorruptedFileError`. -/
theorem C3_oversized_rejected_before_parse (pillow : PillowDecode)
    (mupdf : FitzOpen) (b : List Nat) (k : String)
    (h : b.length > AZURE_MAX_FILE_MB * (1024 * 1024)) :
    validate_file pillow mupdf b k = .error (.fileTooLarge (sizeLimitMsg k)) ∧
    ∀ msg, validate_file pillow mupdf b k ≠ .error (.corruptedFile msg) := by
  have hv := validate_file_oversized pillow mupdf b k h
  refine ⟨hv, fun msg hc => ?_⟩
  rw [hv] at hc
  exact FileError.noConfusion (Except.error.inj hc)

/-- Witness for C3: 524288100 zero bytes, oversized and structurally
corrupted (both oracles fail on every input), classified as PDF. -/
theorem C3_oversized_rejected_before_parse_witness :
    validate_file failPillow noPdf (List.replicate 524288100 (0 : Nat)) "pdf"
      = .error (.fileTooLarge (sizeLimitMsg "pdf")) ∧
    ∀ msg, validate_file failPillow noPdf (List.replicate 524288100 (0 : Nat)) "pdf"
      ≠ .error (.corruptedFile msg) :=
  C3_oversized_rejected_before_parse failPillow noPdf _ "pdf"
    (by rw [List.length_replicate]; norm_num [AZURE_MAX_FILE_MB])

/-- Pillow oracle for C1: the bytes decode to a 10001 by 10 image,
whose width exceeds `AZURE_MAX_IMAGE_WIDTH`. -/
def wideImagePillow : PillowDecode := fun _ => .ok 10001 10

/-- C1 fails on the code: two bytes that Pillow decodes as a 10001 by 10
image (width over the 10000 limit) are rejected by `validate_file` with
`CorruptedFileError("Image validation failed.")`, not with the
`FileTooLargeError` the claim (and the function docstring) promise: the
`FileTooLargeError` raised inside the `try:` block is intercepted by the
blanket `except Exception` handler and replaced. -/
theorem C1_oversized_image_reported_corrupted :
    validate_file wideImagePillow noPdf [0x89, 0x50] "image"
      = .error (.corruptedFile "Image validation failed.") ∧
    ∀ msg, validate_file wideImagePillow noPdf [0x89, 0x50] "image"
      ≠ .error (.fileTooLarge msg) := by
  constructor
  · rfl
  · intro msg hc
    rw [show validate_file wideImagePillow noPdf [0x89, 0x50] "image"
      = .error (.corruptedFile "Image validation failed.") from rfl] at hc
    exact FileError.noConfusion (Except.error.inj hc)

/-- C7: every byte sequence whose first four bytes are `%PDF` is
classified as PDF by `detect_file_type`, for every Pillow oracle (the
decoder is never consulted, so the remainder need not parse). -/
theorem C7_pdf_signature_classified_pdf (pillow : PillowDecode)
    (b : List Nat) (h : b.take 4 = pdfSignature) :
    detect_file_type pillow b = .ok "pdf" := by
  have hb : b ≠ [] := by
    intro he
    rw [he] at h
    exact List.noConfusion h
  unfold detect_file_type
  rw [if_neg hb, if_pos h]

/-- Witness for C7: the signature followed by arbitrary garbage, with a
Pillow oracle that rejects everything. -/
theorem C7_pdf_signature_classified_pdf_witness :
    detect_file_type failPillow (pdfSignature ++ [0, 1, 255]) = .ok "pdf" :=
  C7_pdf_signature_classified_pdf failPillow _ (by decide)

/-- C9: the empty byte sequence is rejected with
`EmptyFileError("File is empty")` by `detect_file_type` and hence by
`process_file`, for every Pillow and PyMuPDF oracle (no signature check
or decode attempt can influence the result). -/
theorem C9_empty_input_rejected (pillow : PillowDecode) (mupdf : FitzOpen) :
    detect_file_type pillow [] = .error (.emptyFile "File is empty") ∧
    process_file pillow mupdf [] = .error (.emptyFile "File is empty") :=
  ⟨rfl, rfl⟩

/-- C10: `detect_file_type` can only fail with `EmptyFileError` or
`UnsupportedFileTypeError`: whatever the Pillow oracle does — including
failing on bytes that match an image container but are internally
corrupt — every error it causes during classification surfaces as
`UnsupportedFileTypeError`, never as `CorruptedFileError` or
`FileTooLargeError`. -/
theorem C10_classify_error_kinds (pillow : PillowDecode) (b : List Nat)
    (e : FileError) (h : detect_file_type pillow b = .error e) :
    (∃ msg, e = .emptyFile msg) ∨ (∃ msg, e = .unsupportedFileType msg) := by
  unfold detect_file_type at h
  by_cases hb : b = []
  · rw [if_pos hb] at h
    exact Or.inl ⟨"File is empty", (Except.error.inj h).symm⟩
  · rw [if_neg hb] at h
    by_cases hsig : b.take 4 = pdfSignature
    · rw [if_pos hsig] at h
      exact Except.noConfusion h
    · rw [if_neg hsig] at h
      cases hp : pillow b with
      | ok w hgt => rw [hp] at h; exact Except.noConfusion h
      | unidentifiedImage =>
        rw [hp] at h
        exact Or.inr ⟨"Unsupported image format", (Except.error.inj h).symm⟩
      | otherError msg =>
        rw [hp] at h
        exact Or.inr ⟨"Error processing file: " ++ msg, (Except.error.inj h).symm⟩

/-- Witness for C10 at a one-byte input whose decode raises
`UnidentifiedImageError`. -/
theorem C10_classify_error_kinds_witness :
    (∃ msg, FileError.unsupportedFileType "Unsupported image format"
      = .emptyFile msg) ∨
    (∃ msg, FileError.unsupportedFileType "Unsupported image format"
      = .unsupportedFileType msg) :=
  C10_classify_error_kinds failPillow [0]
    (.unsupportedFileType "Unsupported image format") rfl

/-- PyMuPDF oracle for the C4 counterexample: one page whose rendered
pixmap is 1999 by 3. -/
def narrowTallDoc : FitzOpen := fun _ => some [⟨10, 10, 1999, 3⟩]

/-- C4 as stated is false: a page rendered at 1999 by 3 is downsized to
width 1200 with height `int(3 * (1200 / 1999)) = 1`, while
`round(3 * 1200 / 1999) = round(1.8009...) = 2`; the source truncates
with `int()`, it does not round. -/
theorem C4_round_counterexample :
    pdf_bytes_to_images narrowTallDoc [0x25] 150 1200
      = .ok [⟨1200, 1⟩] ∧
    ((1 : ℤ) ≠ round ((3 * 1200 : ℚ) / 1999)) := by
  constructor
  · rfl
  · have hr : round ((3 * 1200 : ℚ) / 1999) = 2 := by
      rw [round_eq]
      rw [show (3 * 1200 : ℚ) / 1999 + 1 / 2 = 2 + 1203 / 3998 by norm_num]
      rw [Int.floor_eq_iff]
      constructor <;> norm_num
    rw [hr]
    decide

/-- C4 (amended): every page whose rendered width exceeds `max_width`
comes back with width exactly `max_width` and height
`renderHeight * max_width / renderWidth` rounded down (the floor that
the `int()` truncation computes); every page at or under the threshold
comes back at its native render resolution unchanged. -/
theorem C4_downsample_floor (mupdf : FitzOpen) (b : List Nat)
    (dpi max_width : Nat) (doc : List FitzPage)
    (hopen : mupdf b = some doc) :
    ∃ imgs, pdf_bytes_to_images mupdf b dpi max_width = .ok imgs ∧
      ∀ (i : Nat) (page : FitzPage), doc[i]? = some page →
        imgs[i]? = some (if page.renderWidth > max_width
          then ⟨max_width, page.renderHeight * max_width / page.renderWidth⟩
          else ⟨page.renderWidth, page.renderHeight⟩) := by
  refine ⟨doc.map (renderPage max_width), ?_, ?_⟩
  · unfold pdf_bytes_to_images
    rw [hopen]
  · intro i page hp
    rw [List.getElem?_map, hp]
    rfl

/-- Witness for C4 (amended): a two-page document, one page over and one
page under the 1200 pixel threshold. -/
theorem C4_downsample_floor_witness :
    ∃ imgs, pdf_bytes_to_images (fun _ => some [⟨10, 10, 2400, 602⟩, ⟨10, 10, 800, 600⟩])
        [0x25] 150 1200 = .ok imgs ∧
      ∀ (i : Nat) (page : FitzPage),
          ([⟨10, 10, 2400, 602⟩, ⟨10, 10, 800, 600⟩] : List FitzPage)[i]?
          = some page →
        imgs[i]? = some (if page.renderWidth > 1200
          then ⟨1200, page.renderHeight * 1200 / page.renderWidth⟩
          else ⟨page.renderWidth, page.renderHeight⟩) :=
  C4_downsample_floor (fun _ => some [⟨10, 10, 2400, 602⟩, ⟨10, 10, 800, 600⟩])
    [0x25] 150 1200 _ rfl

/-- A page satisfies the probe dimension limits of `validate_file`. -/
def pageWithinLimits (p : FitzPage) : Prop :=
  p.probeWidth ≤ AZURE_MAX_IMAGE_WIDTH ∧ p.probeHeight ≤ AZURE_MAX_IMAGE_HEIGHT

instance (p : FitzPage) : Decidable (pageWithinLimits p) :=
  inferInstanceAs (Decidable (_ ∧ _))

/-- Shared helper: the probe loop fails at the first page violating the
dimension limits, reporting its index offset by the loop start. -/
lemma validatePdfPages_first_violation :
    ∀ (doc : List FitzPage) (start i : Nat) (hi : i < doc.length),
    (∀ j (hj : j < i), pageWithinLimits (doc.get ⟨j, lt_trans hj hi⟩)) →
    ¬ pageWithinLimits (doc.get ⟨i, hi⟩) →
    validatePdfPages doc start = .error (.fileTooLarge
      (pageDimsMsg (start + i) (doc.get ⟨i, hi⟩).probeWidth
        (doc.get ⟨i, hi⟩).probeHeight))
  | [], _, i, hi, _, _ => absurd hi (Nat.not_lt_zero i)
  | page :: rest, start, 0, _, _, hbad => by
    unfold validatePdfPages
    rw [if_pos (by
      rcases Nat.lt_or_ge AZURE_MAX_IMAGE_WIDTH page.probeWidth with hw | hw
      · exact Or.inl hw
      · refine Or.inr ?_
        rcases Nat.lt_or_ge AZURE_MAX_IMAGE_HEIGHT page.probeHeight with hh | hh
        · exact hh
        · exact absurd ⟨hw, hh⟩ hbad)]
    rfl
  | page :: rest, start, i + 1, hi, hprev, hbad => by
    unfold validatePdfPages
    rw [if_neg (by
      have hp : pageWithinLimits page := hprev 0 (Nat.succ_pos i)
      intro hc
      rcases hc with hc | hc
      · exact absurd hp.1 (Nat.not_le_of_lt hc)
      · exact absurd hp.2 (Nat.not_le_of_lt hc))]
    have ih := validatePdfPages_first_violation rest (start + 1) i
      (Nat.lt_of_succ_lt_succ hi)
      (fun j hj => hprev (j + 1) (Nat.succ_lt_succ hj))
      hbad
    rw [ih]
    have harith : start + 1 + i = start + (i + 1) := by omega
    rw [harith]
    rfl

/-- Shared helper: when detection succeeds and validation fails,
`process_file` propagates the validation error unchanged (the rasterizer
branch is never taken). -/
lemma process_file_of_validate_error (pillow : PillowDecode) (mupdf : FitzOpen)
    (b : List Nat) (t : String) (e : FileError)
    (hdet : detect_file_type pillow b = .ok t)
    (hval : validate_file pillow mupdf b t = .error e) :
    process_file pillow mupdf b = .error e := by
  unfold process_file
  rw [hdet]
  simp [hval]

/-- Shared helper: detection of bytes carrying the PDF signature. -/
lemma detect_pdf_of_signature (pillow : PillowDecode) (b : List Nat)
    (hsig : b.take 4 = pdfSignature) :
    detect_file_type pillow b = .ok "pdf" := by
  have hb : b ≠ [] := by
    intro he
    rw [he] at hsig
    exact List.noConfusion hsig
  unfold detect_file_type
  rw [if_neg hb, if_pos hsig]

/-- C5: for an in-size PDF with an acceptable page count, `validate_file`
probes pages in order and fails with `FileTooLargeError` at the first
page whose probe width or height exceeds the limits, reporting its
0-based index and measured dimensions; `process_file` propagates exactly
that validation error, so the document is never handed to
`pdf_bytes_to_images`. -/
theorem C5_first_oversized_page_rejected (pillow : PillowDecode)
    (mupdf : FitzOpen) (b : List Nat) (doc : List FitzPage) (i : Nat)
    (hi : i < doc.length)
    (hsig : b.take 4 = pdfSignature)
    (hsize : ¬ b.length > AZURE_MAX_FILE_MB * (1024 * 1024))
    (hopen : mupdf b = some doc)
    (hcount : ¬ doc.length > AZURE_MAX_PDF_PAGES)
    (hprev : ∀ j (hj : j < i), pageWithinLimits (doc.get ⟨j, lt_trans hj hi⟩))
    (hbad : ¬ pageWithinLimits (doc.get ⟨i, hi⟩)) :
    validate_file pillow mupdf b "pdf" = .error (.fileTooLarge
      (pageDimsMsg i (doc.get ⟨i, hi⟩).probeWidth (doc.get ⟨i, hi⟩).probeHeight)) ∧
    process_file pillow mupdf b = .error (.fileTooLarge
      (pageDimsMsg i (doc.get ⟨i, hi⟩).probeWidth (doc.get ⟨i, hi⟩).probeHeight)) := by
  have hval : validate_file pillow mupdf b "pdf" = .error (.fileTooLarge
      (pageDimsMsg i (doc.get ⟨i, hi⟩).probeWidth (doc.get ⟨i, hi⟩).probeHeight)) := by
    unfold validate_file
    rw [if_neg hsize, if_pos rfl, hopen]
    show (if doc.length > AZURE_MAX_PDF_PAGES then _ else validatePdfPages doc 0) = _
    rw [if_neg hcount]
    have hv := validatePdfPages_first_violation doc 0 i hi hprev hbad
    rw [hv, Nat.zero_add]
  exact ⟨hval, process_file_of_validate_error pillow mupdf b "pdf" _
    (detect_pdf_of_signature pillow b hsig) hval⟩

/-- Witness for C5: a two-page document whose second page probes at
20000 by 50; validation and processing both fail with the page-1
dimension message. -/
theorem C5_first_oversized_page_rejected_witness :
    validate_file failPillow (fun _ => some [⟨100, 100, 50, 50⟩, ⟨20000, 50, 50, 50⟩])
      pdfSignature "pdf" = .error (.fileTooLarge (pageDimsMsg 1 20000 50)) ∧
    process_file failPillow (fun _ => some [⟨100, 100, 50, 50⟩, ⟨20000, 50, 50, 50⟩])
      pdfSignature = .error (.fileTooLarge (pageDimsMsg 1 20000 50)) :=
  C5_first_oversized_page_rejected failPillow
    (fun _ => some [⟨100, 100, 50, 50⟩, ⟨20000, 50, 50, 50⟩]) pdfSignature
    [⟨100, 100, 50, 50⟩, ⟨20000, 50, 50, 50⟩] 1 (by decide) rfl (by decide) rfl
    (by decide)
    (fun j hj => by
      have hj0 : j = 0 := by omega
      subst hj0
      exact (show pageWithinLimits ⟨100, 100, 50, 50⟩ by decide))
    (by decide)

/-- C6: on a document PyMuPDF opens as `doc`, `pdf_bytes_to_images`
returns exactly one image per source page, in source order: the result
is the page list mapped through the per-page conversion, its length is
the page count the validation pass observes through the same oracle,
and the image at every index comes from the page at that index. -/
theorem C6_rasterize_page_count_order (mupdf : FitzOpen) (b : List Nat)
    (dpi max_width : Nat) (doc : List FitzPage)
    (hopen : mupdf b = some doc) :
    pdf_bytes_to_images mupdf b dpi max_width
      = .ok (doc.map (renderPage max_width)) ∧
    (doc.map (renderPage max_width)).length = doc.length ∧
    ∀ i (hi : i < doc.length),
      (doc.map (renderPage max_width))[i]?
        = some (renderPage max_width (doc.get ⟨i, hi⟩)) := by
  refine ⟨?_, List.length_map doc _, ?_⟩
  · unfold pdf_bytes_to_images
    rw [hopen]
  · intro i hi
    rw [List.getElem?_map, List.getElem?_eq_getElem hi]
    rfl

/-- Witness for C6: a valid 3-page document yields exactly 3 images in
source order. -/
theorem C6_rasterize_page_count_order_witness :
    pdf_bytes_to_images (fun _ => some [⟨10, 10, 100, 100⟩, ⟨10, 10, 200, 200⟩,
        ⟨10, 10, 300, 300⟩]) pdfSignature 150 1200
      = .ok (([⟨10, 10, 100, 100⟩, ⟨10, 10, 200, 200⟩, ⟨10, 10, 300, 300⟩] :
          List FitzPage).map (renderPage 1200)) ∧
    (([⟨10, 10, 100, 100⟩, ⟨10, 10, 200, 200⟩, ⟨10, 10, 300, 300⟩] :
        List FitzPage).map (renderPage 1200)).length
      = ([⟨10, 10, 100, 100⟩, ⟨10, 10, 200, 200⟩, ⟨10, 10, 300, 300⟩] :
          List FitzPage).length ∧
    ∀ i (hi : i < ([⟨10, 10, 100, 100⟩, ⟨10, 10, 200, 200⟩, ⟨10, 10, 300, 300⟩] :
        List FitzPage).length),
      (([⟨10, 10, 100, 100⟩, ⟨10, 10, 200, 200⟩, ⟨10, 10, 300, 300⟩] :
          List FitzPage).map (renderPage 1200))[i]?
        = some (renderPage 1200 (([⟨10, 10, 100, 100⟩, ⟨10, 10, 200, 200⟩,
            ⟨10, 10, 300, 300⟩] : List FitzPage).get ⟨i, hi⟩)) :=
  C6_rasterize_page_count_order
    (fun _ => some [⟨10, 10, 100, 100⟩, ⟨10, 10, 200, 200⟩, ⟨10, 10, 300, 300⟩])
    pdfSignature 150 1200 _ rfl

/-- C8: an input classified as an image that passes validation is
returned by `process_file` as the original byte sequence, unchanged. -/
theorem C8_image_passthrough (pillow : PillowDecode) (mupdf : FitzOpen)
    (b : List Nat)
    (hdet : detect_file_type pillow b = .ok "image")
    (hval : validate_file pillow mupdf b "image" = .ok ()) :
    process_file pillow mupdf b = .ok (.imageBytes b) := by
  unfold process_file
  rw [hdet]
  simp [hval]

/-- Witness for C8: four PNG-header-like bytes decoding as a 10 by 10
image pass through `process_file` unchanged. -/
theorem C8_image_passthrough_witness :
    process_file smallOkPillow noPdf [0x89, 0x50, 0x4E, 0x47]
      = .ok (.imageBytes [0x89, 0x50, 0x4E, 0x47]) :=
  C8_image_passthrough smallOkPillow noPdf [0x89, 0x50, 0x4E, 0x47] rfl rfl

end FileUtils
